import Mathlib

/-!
Shallow embedding of the simply-migrate migration orchestrator
(`src/app`), covering:

* `app/migration_queue/state_management.py` — `MigrationStatus`,
  `TenantMigrationResult`, `MigrationJobState`, and the `StateManager`
  operations `create_job`, `get_job`, `update_tenant_result`,
  `get_all_jobs`.  The Redis store is modelled as an association list
  from key to (deserialised) job record; `SETEX` overwrites the value
  of an existing key in place and appends a fresh key at the end, which
  fixes one deterministic key-enumeration order for `KEYS`.  JSON
  serialisation of the job status is modelled precisely, because it
  drives control flow: `get_job_dict` leaves a status read back from
  the store a plain string (its line 61 is the no-op
  `job_dict['status'] = job_dict['status']`), while `_save_job` takes
  `job.status.value` — an attribute only an enum member has — so a save
  of a job whose status was never reassigned to an enum member raises
  `AttributeError` before `setex` runs and leaves the store unchanged.
  The status field is therefore a sum `PyStatus` of enum member and
  plain string, and `save_job`/`update_tenant_result` return `Except`,
  the error being the propagated exception.  Tenant-result statuses
  also deserialise to strings, but nothing in the code ever takes
  `.value` of, or branches on, a deserialised tenant-result status
  (`serialize_for_celery` passes strings through), so they are kept as
  the enum.  The 7-day TTL and wall-clock reads (`datetime.utcnow()`)
  are external effects: timestamps are passed in as explicit
  parameters.
* `app/callback/…` — `CallbackResult`, `CallbackContext` and
  `CallbackRegistry.run_callbacks`.  A Python handler is modelled as a
  named function from the context to a tagged return value (`None`, a
  `CallbackResult`, a `bool`, a `dict`, or a raised exception carrying
  its message).
* `app/migration/validator.py` — the filename patterns and
  `parse_script_filename` / `load_scripts`.
* `app/worker.py` — `apply_migration_to_tenant`.
* `app/routers/job_runner.py` — `start_migration_job`.

Dictionary values that cross the metadata bags are modelled by a small
`MetaValue` universe; `dict.update` keeps the position of an existing
key and appends new keys, as in CPython.
-/

namespace SimplyMigrate

/-- Python dict update of a single key: an existing key keeps its
position and receives the new value, a fresh key is appended. -/
def dictSet {α : Type} (m : List (String × α)) (k : String) (v : α) :
    List (String × α) :=
  if m.any (fun p => p.1 == k) then
    m.map (fun p => if p.1 == k then (k, v) else p)
  else
    m ++ [(k, v)]

/-- Python `d.update(u)`: fold `dictSet` over the entries of `u`. -/
def dictUpd {α : Type} (m upd : List (String × α)) : List (String × α) :=
  upd.foldl (fun acc p => dictSet acc p.1 p.2) m

/-- Python `d[k]` / `d.get(k)` as an optional lookup (first matching key). -/
def dictGet {α : Type} (m : List (String × α)) (k : String) : Option α :=
  (m.find? (fun p => p.1 == k)).map (fun p => p.2)

/-- `app.models.models.StartMigrationTenantRequest` (pydantic model). -/
structure StartMigrationTenantRequest where
  tenant_id : String
  tenant_name : Option String
  user : String
  password : String
  database_name : String
  host : Option String
  connection_string : Option String
  deriving DecidableEq, Repr

/-- Universe of values stored in the metadata dictionaries that flow
through callback contexts and results. -/
inductive MetaValue where
  | str (s : String)
  | int (n : Int)
  | boolean (b : Bool)
  | tenants (ts : List StartMigrationTenantRequest)
  deriving DecidableEq, Repr

/-- Metadata bag: a Python `Dict[str, Any]` in insertion order. -/
abbrev Metadata : Type := List (String × MetaValue)

/-- `MigrationStatus` from `state_management.py`.  The Lean keyword
`partial` forces the name `partial_` for the `PARTIAL` member. -/
inductive MigrationStatus where
  | pending
  | running
  | success
  | failed
  | rolled_back
  | partial_
  deriving DecidableEq, Repr

/-- The `.value` string of each `MigrationStatus` member. -/
def migrationStatusValue : MigrationStatus → String
  | MigrationStatus.pending => "pending"
  | MigrationStatus.running => "running"
  | MigrationStatus.success => "success"
  | MigrationStatus.failed => "failed"
  | MigrationStatus.rolled_back => "rolled_back"
  | MigrationStatus.partial_ => "partial"

/-- The runtime value held by `MigrationJobState.status`: `create_job`,
`update_job_status` and the terminal branch of `update_tenant_result`
assign a `MigrationStatus` member, while `get_job_dict` leaves a status
read back from the store the plain JSON string (state_management.py
line 61 is the no-op `job_dict['status'] = job_dict['status']`). -/
inductive PyStatus where
  | enum (s : MigrationStatus)
  | str (s : String)
  deriving DecidableEq, Repr

/-- `TenantMigrationResult` dataclass.  `duration_seconds` (a Python
float computed from two wall-clock reads) is carried as an opaque
integer parameter. -/
structure TenantMigrationResult where
  tenant_id : String
  status : MigrationStatus
  scripts_applied : List String
  scripts_skipped : List String
  callback_metadata : Metadata
  error_message : Option String := none
  started_at : Option String := none
  completed_at : Option String := none
  duration_seconds : Option Int := none
  deriving DecidableEq, Repr

/-- `MigrationJobState` dataclass.  `status` carries either an enum
member or the plain string a store read-back leaves behind. -/
structure MigrationJobState where
  job_id : String
  status : PyStatus
  tenants : List (Option String)
  total_tenants : Nat
  completed_tenants : Nat
  successful_tenants : Nat
  failed_tenants : Nat
  tenant_results : List (String × TenantMigrationResult)
  started_at : String
  completed_at : Option String := none
  error_message : Option String := none
  deriving DecidableEq, Repr

/-- The Redis store, restricted to the migration-job namespace: an
association list from full key to the (deserialised) job record. -/
abbrev Store : Type := List (String × MigrationJobState)

/-- Key layout `migration:job:<job_id>` used by `StateManager`. -/
def jobKey (job_id : String) : String := "migration:job:" ++ job_id

/-- `StateManager._save_job`: serialise the job and `SETEX` it under
its key (TTL elided).  The line `job_dict['status'] = job.status.value`
dereferences `.value` on the status: an enum member serialises to its
value string (which is what a later `get_job` hands back), while a
plain string — any status that came back through `get_job_dict` and was
not reassigned — has no `.value`, so the save raises `AttributeError`
before `setex` runs and the store is unchanged. -/
def save_job (s : Store) (job : MigrationJobState) : Except String Store :=
  match job.status with
  | PyStatus.enum e =>
    Except.ok (dictSet s (jobKey job.job_id)
      { job with status := PyStatus.str (migrationStatusValue e) })
  | PyStatus.str _ =>
    Except.error "AttributeError: 'str' object has no attribute 'value'"

/-- `StateManager.get_job`: `GET` then deserialise through
`get_job_dict`; `None` when the key is absent.  The stored record holds
the status as the plain JSON string and `get_job_dict` leaves it so. -/
def get_job (s : Store) (job_id : String) : Option MigrationJobState :=
  dictGet s (jobKey job_id)

/-- `StateManager.create_job`: build a fresh `PENDING` job and save it.
`now` stands for `datetime.utcnow().isoformat()`.  The save cannot
raise here — the freshly built status is the `PENDING` enum member —
so the error branch of the match is dead. -/
def create_job (s : Store) (job_id : String)
    (tenants : List StartMigrationTenantRequest) (now : String) :
    Store × MigrationJobState :=
  let state : MigrationJobState :=
    { job_id := job_id
      status := PyStatus.enum MigrationStatus.pending
      tenants := tenants.map (fun t => t.tenant_name)
      total_tenants := tenants.length
      completed_tenants := 0
      successful_tenants := 0
      failed_tenants := 0
      tenant_results := []
      started_at := now }
  (match save_job s state with
   | Except.ok s1 => s1
   | Except.error _ => s, state)

/-- Mutation block of `StateManager.update_tenant_result` (lines
111-126 of `state_management.py`) as a pure job transformation:
overwrite `tenant_results[tenant_id]`, bump `completed_tenants`, bump
`successful_tenants` or `failed_tenants` according to the result
status, and on `completed_tenants == total_tenants` resolve the
terminal status and stamp `completed_at = now`. -/
def apply_tenant_result (job : MigrationJobState)
    (tenant_result : TenantMigrationResult) (now : String) : MigrationJobState :=
  let job :=
    { job with
      tenant_results := dictSet job.tenant_results tenant_result.tenant_id tenant_result
      completed_tenants := job.completed_tenants + 1 }
  let job :=
    if tenant_result.status = MigrationStatus.success then
      { job with successful_tenants := job.successful_tenants + 1 }
    else if tenant_result.status = MigrationStatus.failed then
      { job with failed_tenants := job.failed_tenants + 1 }
    else job
  if job.completed_tenants = job.total_tenants then
    { job with
      status := PyStatus.enum
        (if job.failed_tenants = 0 then MigrationStatus.success
         else if job.successful_tenants = 0 then MigrationStatus.failed
         else MigrationStatus.partial_)
      completed_at := some now }
  else job

/-- `StateManager.update_tenant_result`: read-modify-write of the job
record; a silent no-op when the job is absent (it returns before any
save, raising nothing).  `now` stands for the
`datetime.utcnow().isoformat()` read in the terminal branch.  Because
`get_job` hands back a string status and only the terminal branch of
the mutation block reassigns an enum member, the final `_save_job`
raises `AttributeError` on every NON-terminal update of a stored job,
leaving the store unchanged. -/
def update_tenant_result (s : Store) (job_id : String)
    (tenant_result : TenantMigrationResult) (now : String) :
    Except String Store :=
  match get_job s job_id with
  | none => Except.ok s
  | some job => save_job s (apply_tenant_result job tenant_result now)

/-- Model of the Redis `KEYS "migration:job:*"` glob: the key's
character sequence starts with the job namespace. -/
def keyMatchesJobGlob (k : String) : Bool :=
  "migration:job:".toList.isPrefixOf k.toList

/-- `StateManager.get_all_jobs`: enumerate keys, truncate to `limit`,
fetch each record, then sort by `started_at` descending (Python
`sorted(..., reverse=True)` on ISO-8601 strings). -/
def get_all_jobs (s : Store) (limit : Nat) : List MigrationJobState :=
  let keys := (s.map Prod.fst).filter keyMatchesJobGlob
  let jobs := (keys.take limit).filterMap (fun k => dictGet s k)
  List.insertionSort (fun a b => b.started_at ≤ a.started_at) jobs

/-! ### Basic dictionary lemmas -/

theorem dictSet_pos {α : Type} (m : List (String × α)) (k : String) (v : α)
    (h : m.any (fun p => p.1 == k) = true) :
    dictSet m k v = m.map (fun p => if p.1 == k then (k, v) else p) := by
  unfold dictSet
  rw [if_pos h]

theorem dictSet_neg {α : Type} (m : List (String × α)) (k : String) (v : α)
    (h : ¬ m.any (fun p => p.1 == k) = true) :
    dictSet m k v = m ++ [(k, v)] := by
  unfold dictSet
  rw [if_neg h]

theorem dictGet_dictSet_self {α : Type} (m : List (String × α)) (k : String) (v : α) :
    dictGet (dictSet m k v) k = some v := by
  unfold dictGet
  by_cases h : m.any (fun p => p.1 == k) = true
  · rw [dictSet_pos m k v h, List.find?_map]
    have hp : ((fun p : String × α => p.1 == k) ∘
        (fun p : String × α => if p.1 == k then (k, v) else p)) =
        (fun p : String × α => p.1 == k) := by
      funext p
      by_cases hpk : p.1 = k <;> simp [hpk]
    rw [hp]
    have hsome : (m.find? (fun p => p.1 == k)).isSome := by
      rw [List.find?_isSome]
      simpa using List.any_eq_true.mp h
    obtain ⟨q, hq⟩ := Option.isSome_iff_exists.mp hsome
    have hqk := List.find?_some hq
    have hqe : q.1 = k := by simpa using hqk
    rw [hq]
    simp [hqe]
  · rw [dictSet_neg m k v h]
    have hnone : m.find? (fun p => p.1 == k) = none := by
      rw [List.find?_eq_none]
      intro x hx
      exact fun hxk => h (List.any_eq_true.mpr ⟨x, hx, hxk⟩)
    rw [List.find?_append, hnone]
    simp

theorem any_dictSet_self {α : Type} (m : List (String × α)) (k : String) (v : α) :
    (dictSet m k v).any (fun p => p.1 == k) = true := by
  by_cases h : m.any (fun p => p.1 == k) = true
  · rw [dictSet_pos m k v h]
    obtain ⟨x, hx, hxk⟩ := List.any_eq_true.mp h
    refine List.any_eq_true.mpr ⟨(k, v), List.mem_map.mpr ⟨x, hx, ?_⟩, by simp⟩
    simp [hxk]
  · rw [dictSet_neg m k v h]
    exact List.any_eq_true.mpr ⟨(k, v), by simp, by simp⟩

theorem dictSet_dictSet_self {α : Type} (m : List (String × α)) (k : String) (v w : α) :
    dictSet (dictSet m k v) k w = dictSet m k w := by
  by_cases h : m.any (fun p => p.1 == k) = true
  · have h2 := any_dictSet_self m k v
    rw [dictSet_pos m k v h] at h2
    rw [dictSet_pos m k v h, dictSet_pos _ k w h2, dictSet_pos m k w h, List.map_map]
    apply List.map_congr_left
    intro p _
    by_cases hpk : p.1 = k <;> simp [hpk]
  · have h2 := any_dictSet_self m k v
    rw [dictSet_neg m k v h] at h2
    rw [dictSet_neg m k v h, dictSet_pos _ k w h2, dictSet_neg m k w h, List.map_append]
    congr 1
    · conv_rhs => rw [← List.map_id m]
      apply List.map_congr_left
      intro p hpm
      have hpk : ¬(p.1 == k) = true := fun he => h (List.any_eq_true.mpr ⟨p, hpm, he⟩)
      simp only [if_neg hpk, id]
    · simp

/-- Saving a job whose status is an enum member succeeds and stores the
record with the status serialised to its value string. -/
theorem save_job_enum (s : Store) (job : MigrationJobState)
    (e : MigrationStatus) (he : job.status = PyStatus.enum e) :
    save_job s job = Except.ok (dictSet s (jobKey job.job_id)
      { job with status := PyStatus.str (migrationStatusValue e) }) := by
  unfold save_job
  rw [he]

/-- Saving a job whose status is a plain string raises
`AttributeError` and persists nothing. -/
theorem save_job_str (s : Store) (job : MigrationJobState)
    (sv : String) (hs : job.status = PyStatus.str sv) :
    save_job s job =
      Except.error "AttributeError: 'str' object has no attribute 'value'" := by
  unfold save_job
  rw [hs]

/-- A record written under a job key is readable back under that id. -/
theorem get_job_dictSet_self (s : Store) (job : MigrationJobState)
    (job_id : String) :
    get_job (dictSet s (jobKey job_id) job) job_id = some job := by
  unfold get_job
  exact dictGet_dictSet_self s (jobKey job_id) job

/-! ### Field characterisation of `apply_tenant_result` -/

theorem apply_tenant_result_fields (job : MigrationJobState)
    (r : TenantMigrationResult) (now : String) :
    (apply_tenant_result job r now).job_id = job.job_id ∧
    (apply_tenant_result job r now).total_tenants = job.total_tenants ∧
    (apply_tenant_result job r now).completed_tenants = job.completed_tenants + 1 ∧
    (apply_tenant_result job r now).successful_tenants =
      job.successful_tenants +
        (if r.status = MigrationStatus.success then 1 else 0) ∧
    (apply_tenant_result job r now).failed_tenants =
      job.failed_tenants + (if r.status = MigrationStatus.failed then 1 else 0) ∧
    (apply_tenant_result job r now).tenant_results =
      dictSet job.tenant_results r.tenant_id r ∧
    (job.completed_tenants + 1 ≠ job.total_tenants →
      (apply_tenant_result job r now).status = job.status ∧
      (apply_tenant_result job r now).completed_at = job.completed_at) ∧
    (job.completed_tenants + 1 = job.total_tenants →
      (apply_tenant_result job r now).completed_at = some now ∧
      (apply_tenant_result job r now).status = PyStatus.enum
        (if job.failed_tenants +
            (if r.status = MigrationStatus.failed then 1 else 0) = 0 then
          MigrationStatus.success
        else if job.successful_tenants +
            (if r.status = MigrationStatus.success then 1 else 0) = 0 then
          MigrationStatus.failed
        else MigrationStatus.partial_)) := by
  unfold apply_tenant_result
  rcases hs : r.status <;>
    by_cases hterm : job.completed_tenants + 1 = job.total_tenants <;>
      simp [hs, hterm]

/-! ### Concrete fixtures used by witnesses and counterexamples -/

/-- A successful tenant result, as a worker would flush it. -/
def exSuccessResult : TenantMigrationResult :=
  { tenant_id := "tenant1"
    status := MigrationStatus.success
    scripts_applied := ["V001__init.sql"]
    scripts_skipped := []
    callback_metadata := [] }

/-- A failed tenant result. -/
def exFailedResult : TenantMigrationResult :=
  { tenant_id := "tenant2"
    status := MigrationStatus.failed
    scripts_applied := []
    scripts_skipped := []
    callback_metadata := []
    error_message := some "boom" }

/-- A fresh two-tenant job as stored by `create_job` and read back by
`get_job`: the status is the plain string `"pending"`. -/
def exJob : MigrationJobState :=
  { job_id := "job-1"
    status := PyStatus.str "pending"
    tenants := [some "tenant1", some "tenant2"]
    total_tenants := 2
    completed_tenants := 0
    successful_tenants := 0
    failed_tenants := 0
    tenant_results := []
    started_at := "2024-01-15T10:30:00" }

/-- A store holding just `exJob`. -/
def exStore : Store := [(jobKey "job-1", exJob)]

/-- A fresh single-tenant job as stored and read back. -/
def exJob1 : MigrationJobState :=
  { job_id := "job-1"
    status := PyStatus.str "pending"
    tenants := [some "tenant1"]
    total_tenants := 1
    completed_tenants := 0
    successful_tenants := 0
    failed_tenants := 0
    tenant_results := []
    started_at := "2024-01-15T10:30:00" }

/-- A store holding just the single-tenant `exJob1`. -/
def exStore1 : Store := [(jobKey "job-1", exJob1)]

/-- A two-tenant job one tenant short of completion, hand-seeded in the
store exactly as the repo's own
`test_update_tenant_result_completes_job_partial_success` seeds it. -/
def exJobMid : MigrationJobState :=
  { job_id := "job-1"
    status := PyStatus.str "running"
    tenants := [some "tenant1", some "tenant2"]
    total_tenants := 2
    completed_tenants := 1
    successful_tenants := 1
    failed_tenants := 0
    tenant_results := []
    started_at := "2024-01-15T10:30:00" }

/-- A store holding just the penultimate-state `exJobMid`. -/
def exStoreMid : Store := [(jobKey "job-1", exJobMid)]

/-! ### C10 -/

/-- C10: `update_tenant_result` with a `job_id` that has no record in
the store is a silent no-op — it returns normally (no exception) before
any save, the store is unchanged and no counter moves, so the tenant
result is dropped without trace. -/
theorem update_tenant_result_missing_job_noop (s : Store) (job_id : String)
    (r : TenantMigrationResult) (now : String)
    (h : get_job s job_id = none) :
    update_tenant_result s job_id r now = Except.ok s := by
  unfold update_tenant_result
  rw [h]

/-- Witness for C10 at the empty store. -/
theorem update_tenant_result_missing_job_noop_witness :
    get_job ([] : Store) "job-x" = none ∧
    update_tenant_result ([] : Store) "job-x" exSuccessResult
      "2024-01-15T11:00:00" = Except.ok ([] : Store) :=
  ⟨rfl, update_tenant_result_missing_job_noop [] "job-x" exSuccessResult
    "2024-01-15T11:00:00" rfl⟩

/-! ### C3 -/

/-- Counterexample to C3 as stated: on a freshly created two-tenant job
both applications of `update_tenant_result` with the same
`(job_id, tenant_id, result)` raise `AttributeError` in `_save_job`
(the first update is non-terminal and the status read back from the
store is a plain string), the store never changes, and the persisted
`completed_tenants` stays 0 — the counters do not increment exactly
once, and no duplicate detection by `tenant_id` takes place. -/
theorem update_tenant_result_not_idempotent_counterexample :
    update_tenant_result exStore "job-1" exSuccessResult
      "2024-01-15T10:40:00" =
      Except.error "AttributeError: 'str' object has no attribute 'value'" ∧
    update_tenant_result exStore "job-1" exSuccessResult
      "2024-01-15T10:41:00" =
      Except.error "AttributeError: 'str' object has no attribute 'value'" ∧
    (get_job exStore "job-1").map (fun j => j.completed_tenants) = some 0 ∧
    (get_job exStore "job-1").map (fun j => j.completed_tenants) ≠ some 1 := by
  refine ⟨rfl, rfl, rfl, ?_⟩
  decide

/-- C3 (amended): `update_tenant_result` performs no duplicate
detection — its mutation block increments `completed_tenants`
unconditionally on every call (and `successful_tenants` /
`failed_tenants` according to the result status), overwriting the
`tenant_results` entry keyed by `tenant_id`.  What bounds the persisted
increments is the `AttributeError` of non-terminal saves, not
idempotence: on a stored job whose next update is non-terminal both
applications of the same `(job_id, tenant_id, result)` raise and the
persisted counters never move, while on a stored job one result short
of completion — e.g. a fresh single-tenant job — the first application
is terminal and persists the incremented counters once, and the second
application raises. -/
theorem update_tenant_result_twice_counts (s : Store) (job_id t1 t2 : String)
    (r : TenantMigrationResult) (job : MigrationJobState) (sv : String)
    (h : get_job s job_id = some job) (hid : job.job_id = job_id)
    (hstatus : job.status = PyStatus.str sv) :
    ((apply_tenant_result job r t1).completed_tenants =
        job.completed_tenants + 1 ∧
      (apply_tenant_result job r t1).successful_tenants =
        job.successful_tenants +
          (if r.status = MigrationStatus.success then 1 else 0) ∧
      (apply_tenant_result job r t1).failed_tenants =
        job.failed_tenants +
          (if r.status = MigrationStatus.failed then 1 else 0) ∧
      (apply_tenant_result job r t1).tenant_results =
        dictSet job.tenant_results r.tenant_id r) ∧
    (job.completed_tenants + 1 ≠ job.total_tenants →
      update_tenant_result s job_id r t1 =
        Except.error "AttributeError: 'str' object has no attribute 'value'") ∧
    (job.completed_tenants = 0 → job.total_tenants = 1 →
      ∃ s1 job1, update_tenant_result s job_id r t1 = Except.ok s1 ∧
        get_job s1 job_id = some job1 ∧
        job1.completed_tenants = 1 ∧
        job1.successful_tenants = job.successful_tenants +
          (if r.status = MigrationStatus.success then 1 else 0) ∧
        job1.failed_tenants = job.failed_tenants +
          (if r.status = MigrationStatus.failed then 1 else 0) ∧
        dictGet job1.tenant_results r.tenant_id = some r ∧
        update_tenant_result s1 job_id r t2 =
          Except.error "AttributeError: 'str' object has no attribute 'value'") := by
  obtain ⟨hjid1, htot1, hc1, hs1, hf1, htr1, hnterm1, hterm1⟩ :=
    apply_tenant_result_fields job r t1
  refine ⟨⟨hc1, hs1, hf1, htr1⟩, ?_, ?_⟩
  · intro hne
    obtain ⟨hst, _⟩ := hnterm1 hne
    unfold update_tenant_result
    rw [h]
    exact save_job_str _ _ sv (by rw [hst, hstatus])
  · intro hc0 ht1
    have hterm : job.completed_tenants + 1 = job.total_tenants := by
      rw [hc0, ht1]
    obtain ⟨hca, hst⟩ := hterm1 hterm
    set E : MigrationStatus :=
      (if job.failed_tenants +
          (if r.status = MigrationStatus.failed then 1 else 0) = 0 then
        MigrationStatus.success
      else if job.successful_tenants +
          (if r.status = MigrationStatus.success then 1 else 0) = 0 then
        MigrationStatus.failed
      else MigrationStatus.partial_) with hE
    set job1 : MigrationJobState :=
      { apply_tenant_result job r t1 with
        status := PyStatus.str (migrationStatusValue E) } with hj1
    have hupd : update_tenant_result s job_id r t1 =
        Except.ok (dictSet s (jobKey (apply_tenant_result job r t1).job_id)
          job1) := by
      unfold update_tenant_result
      rw [h]
      exact save_job_enum s _ E hst
    have hget1 : get_job (dictSet s (jobKey (apply_tenant_result job r t1).job_id)
        job1) job_id = some job1 := by
      rw [hjid1, hid]
      exact get_job_dictSet_self s job1 job_id
    refine ⟨_, job1, hupd, hget1, ?_, ?_, ?_, ?_, ?_⟩
    · show (apply_tenant_result job r t1).completed_tenants = 1
      rw [hc1, hc0]
    · show (apply_tenant_result job r t1).successful_tenants = _
      exact hs1
    · show (apply_tenant_result job r t1).failed_tenants = _
      exact hf1
    · show dictGet (apply_tenant_result job r t1).tenant_results r.tenant_id = some r
      rw [htr1]
      exact dictGet_dictSet_self job.tenant_results r.tenant_id r
    · obtain ⟨_, _, _, _, _, _, hnterm2, _⟩ := apply_tenant_result_fields job1 r t2
      have hcompleted1 : job1.completed_tenants = 1 := by
        show (apply_tenant_result job r t1).completed_tenants = 1
        rw [hc1, hc0]
      have htotal1 : job1.total_tenants = 1 := by
        show (apply_tenant_result job r t1).total_tenants = 1
        rw [htot1, ht1]
      have hne2 : job1.completed_tenants + 1 ≠ job1.total_tenants := by
        omega
      obtain ⟨hst2, _⟩ := hnterm2 hne2
      have hstr2 : (apply_tenant_result job1 r t2).status =
          PyStatus.str (migrationStatusValue E) := by
        rw [hst2]
      unfold update_tenant_result
      rw [hget1]
      exact save_job_str _ _ _ hstr2

/-- Witness for C3 (amended) at the fresh single-tenant store: the
first application persists the counters once, the second raises. -/
theorem update_tenant_result_twice_counts_witness :
    ((apply_tenant_result exJob1 exSuccessResult "2024-01-15T10:40:00").completed_tenants =
        exJob1.completed_tenants + 1 ∧
      (apply_tenant_result exJob1 exSuccessResult "2024-01-15T10:40:00").successful_tenants =
        exJob1.successful_tenants +
          (if exSuccessResult.status = MigrationStatus.success then 1 else 0) ∧
      (apply_tenant_result exJob1 exSuccessResult "2024-01-15T10:40:00").failed_tenants =
        exJob1.failed_tenants +
          (if exSuccessResult.status = MigrationStatus.failed then 1 else 0) ∧
      (apply_tenant_result exJob1 exSuccessResult "2024-01-15T10:40:00").tenant_results =
        dictSet exJob1.tenant_results exSuccessResult.tenant_id exSuccessResult) ∧
    (exJob1.completed_tenants + 1 ≠ exJob1.total_tenants →
      update_tenant_result exStore1 "job-1" exSuccessResult "2024-01-15T10:40:00" =
        Except.error "AttributeError: 'str' object has no attribute 'value'") ∧
    (exJob1.completed_tenants = 0 → exJob1.total_tenants = 1 →
      ∃ s1 job1, update_tenant_result exStore1 "job-1" exSuccessResult
          "2024-01-15T10:40:00" = Except.ok s1 ∧
        get_job s1 "job-1" = some job1 ∧
        job1.completed_tenants = 1 ∧
        job1.successful_tenants = exJob1.successful_tenants +
          (if exSuccessResult.status = MigrationStatus.success then 1 else 0) ∧
        job1.failed_tenants = exJob1.failed_tenants +
          (if exSuccessResult.status = MigrationStatus.failed then 1 else 0) ∧
        dictGet job1.tenant_results exSuccessResult.tenant_id =
          some exSuccessResult ∧
        update_tenant_result s1 "job-1" exSuccessResult "2024-01-15T10:41:00" =
          Except.error "AttributeError: 'str' object has no attribute 'value'") :=
  update_tenant_result_twice_counts exStore1 "job-1"
    "2024-01-15T10:40:00" "2024-01-15T10:41:00" exSuccessResult exJob1
    "pending" (by decide) (by decide) (by decide)

/-! ### C9 -/

theorem dictGet_of_mem_nodup {α : Type} (s : List (String × α)) (p : String × α)
    (hmem : p ∈ s) (hnodup : (s.map Prod.fst).Nodup) :
    dictGet s p.1 = some p.2 := by
  induction s with
  | nil => cases hmem
  | cons q t ih =>
    rw [List.map_cons, List.nodup_cons] at hnodup
    rcases List.mem_cons.mp hmem with rfl | hmem2
    · unfold dictGet
      simp
    · have hq : ¬((fun x : String × α => x.1 == p.1) q) = true := by
        intro he
        apply hnodup.1
        have hqe : q.1 = p.1 := by simpa using he
        rw [hqe]
        exact List.mem_map_of_mem Prod.fst hmem2
      unfold dictGet
      rw [@List.find?_cons_of_neg _ (fun x : String × α => x.1 == p.1) q t hq]
      exact ih hmem2 hnodup.2

theorem filterMap_dictGet_of_sub (s : Store)
    (hnodup : (s.map Prod.fst).Nodup) :
    ∀ l : List (String × MigrationJobState), (∀ p ∈ l, p ∈ s) →
      (l.map Prod.fst).filterMap (fun k => dictGet s k) = l.map Prod.snd := by
  intro l
  induction l with
  | nil => intro _; simp
  | cons p t ih =>
    intro hsub
    have hp : dictGet s p.1 = some p.2 :=
      dictGet_of_mem_nodup s p (hsub p (List.mem_cons_self p t)) hnodup
    simp only [List.map_cons, List.filterMap_cons, hp]
    rw [ih (fun q hq => hsub q (List.mem_cons_of_mem _ hq))]

instance : IsTotal MigrationJobState
    (fun a b => b.started_at ≤ a.started_at) :=
  ⟨fun a b => le_total b.started_at a.started_at⟩

instance : IsTrans MigrationJobState
    (fun a b => b.started_at ≤ a.started_at) :=
  ⟨fun _ _ _ hab hbc => le_trans hbc hab⟩

/-- C9 (amended): `get_all_jobs` truncates the key list to `limit`
BEFORE sorting, so for a store whose keys all live in the job namespace
and are distinct it returns the first `limit` stored jobs in
key-enumeration order, sorted by `started_at` descending — a list that
is sorted and of length at most `limit`, but not in general the
`limit` jobs with the most recent `started_at`. -/
theorem get_all_jobs_sorted_truncation (s : Store) (limit : Nat)
    (hkeys : ∀ p ∈ s, keyMatchesJobGlob (Prod.fst p) = true)
    (hnodup : (s.map Prod.fst).Nodup) :
    List.Sorted (fun a b => b.started_at ≤ a.started_at) (get_all_jobs s limit) ∧
    (get_all_jobs s limit).Perm ((s.take limit).map Prod.snd) := by
  have hfilter : (s.map Prod.fst).filter keyMatchesJobGlob = s.map Prod.fst := by
    rw [List.filter_eq_self]
    intro k hk
    obtain ⟨p, hp, rfl⟩ := List.mem_map.mp hk
    exact hkeys p hp
  have hjobs : ((s.map Prod.fst).take limit).filterMap (fun k => dictGet s k) =
      (s.take limit).map Prod.snd := by
    rw [← List.map_take]
    exact filterMap_dictGet_of_sub s hnodup (s.take limit)
      (fun p hp => List.mem_of_mem_take hp)
  constructor
  · show List.Sorted _ (List.insertionSort _
      ((((s.map Prod.fst).filter keyMatchesJobGlob).take limit).filterMap _))
    rw [hfilter, hjobs]
    exact List.sorted_insertionSort _ _
  · show (List.insertionSort _
      ((((s.map Prod.fst).filter keyMatchesJobGlob).take limit).filterMap _)).Perm _
    rw [hfilter, hjobs]
    exact List.perm_insertionSort _ _

/-- An older job, first in key-enumeration order. -/
def exJobOld : MigrationJobState :=
  { job_id := "old"
    status := PyStatus.str "success"
    tenants := []
    total_tenants := 0
    completed_tenants := 0
    successful_tenants := 0
    failed_tenants := 0
    tenant_results := []
    started_at := "2024-01-14T09:00:00" }

/-- A more recently started job, second in key-enumeration order. -/
def exJobNew : MigrationJobState :=
  { job_id := "new"
    status := PyStatus.str "success"
    tenants := []
    total_tenants := 0
    completed_tenants := 0
    successful_tenants := 0
    failed_tenants := 0
    tenant_results := []
    started_at := "2024-01-15T10:30:00" }

/-- Store holding the old job under the first key and the new job
under the second. -/
def exStoreTwo : Store := [(jobKey "old", exJobOld), (jobKey "new", exJobNew)]

/-- Counterexample to C9 as stated: with two jobs in the store and
`limit = 1`, `get_all_jobs` returns the job under the first enumerated
key even though the other job has a strictly more recent `started_at`
— the truncation happens before the sort, so the result is not the
`limit` jobs with the most recent `started_at`. -/
theorem get_all_jobs_not_most_recent_counterexample :
    get_all_jobs exStoreTwo 1 = [exJobOld] ∧
    exJobOld.started_at < exJobNew.started_at ∧
    get_all_jobs exStoreTwo 1 ≠ [exJobNew] := by
  have h1 : get_all_jobs exStoreTwo 1 = [exJobOld] := rfl
  refine ⟨h1, ?_, ?_⟩
  · rw [String.lt_iff_toList_lt]
    decide
  · rw [h1]
    decide

/-- Witness for C9 (amended) at the concrete two-job store. -/
theorem get_all_jobs_sorted_truncation_witness :
    List.Sorted (fun a b => b.started_at ≤ a.started_at)
      (get_all_jobs exStoreTwo 1) ∧
    (get_all_jobs exStoreTwo 1).Perm ((exStoreTwo.take 1).map Prod.snd) :=
  get_all_jobs_sorted_truncation exStoreTwo 1 (by decide) (by decide)

/-! ### C1 -/

/-- C1 evaluated at the failing input: the terminal branch of
`update_tenant_result` implements exactly the claimed mapping — on a
hand-seeded penultimate state (1 of 2 tenants completed, one success,
as the repo's own tests seed it) a `FAILED` result terminalises the job
as `PARTIAL` with `completed_at` stamped — but from a freshly created
job with `total_tenants = 2` that state is unreachable: the first,
non-terminal flush raises `AttributeError` (`get_job_dict` leaves the
status a plain string and `_save_job` takes `.value` of it), the store
is unchanged and the counters never advance, so no job with two or more
tenants reaches a terminal state through `update_tenant_result`. -/
theorem update_tenant_result_terminal_unreachable_eval :
    (∃ s1 j, update_tenant_result exStoreMid "job-1" exFailedResult
        "2024-01-15T11:00:00" = Except.ok s1 ∧
      get_job s1 "job-1" = some j ∧
      j.status = PyStatus.str "partial" ∧
      j.completed_tenants = 2 ∧
      j.completed_at = some "2024-01-15T11:00:00") ∧
    update_tenant_result exStore "job-1" exSuccessResult
      "2024-01-15T10:40:00" =
      Except.error "AttributeError: 'str' object has no attribute 'value'" ∧
    (get_job exStore "job-1").map (fun j => j.completed_tenants) = some 0 ∧
    exJob.total_tenants = 2 := by
  refine ⟨⟨_, _, rfl, rfl, rfl, rfl, rfl⟩, rfl, rfl, rfl⟩

/-- First tenant of the two-tenant fixtures. -/
def exTenant1 : StartMigrationTenantRequest :=
  { tenant_id := "1"
    tenant_name := some "tenant1"
    user := "tenant_user"
    password := "password"
    database_name := "tenant"
    host := some "localhost"
    connection_string := some "" }

/-- Second tenant of the two-tenant fixtures. -/
def exTenant2 : StartMigrationTenantRequest :=
  { exTenant1 with tenant_id := "2", tenant_name := some "tenant2" }


/-! ### Callback registry (`app/callback`) -/

/-- `CallbackResult` from `callback_result.py`.  `data` defaults to the
empty dict (`data or {}`). -/
structure CallbackResult where
  success : Bool := true
  message : Option String := none
  data : Metadata := []
  skip_script : Bool := false
  deriving DecidableEq, Repr

/-- `CallbackResult.ok()`. -/
def CallbackResult.ok : CallbackResult := {}

/-- `CallbackResult.fail(message)`. -/
def CallbackResult.fail (message : String) : CallbackResult :=
  { success := false, message := some message }

/-- `CallbackResult.skip(message)`. -/
def CallbackResult.skip (message : Option String) : CallbackResult :=
  { skip_script := true, message := message }

/-- One entry of the `scripts: List[Dict]` payload handed to the
worker: a loaded script serialised as `{filename, content}`. -/
structure ScriptDict where
  filename : String
  content : String
  deriving DecidableEq, Repr

/-- `CallbackContext` dataclass from `callback_context.py`.  `script`
is a Python dict (empty at job/tenant scope). -/
structure CallbackContext where
  job_id : String
  tenant_id : String
  script : List (String × String)
  scripts : List ScriptDict
  current_script_index : Int
  metadata : Metadata
  deriving Repr

/-- Tagged return value of a Python handler: `None`, a
`CallbackResult`, a `bool`, a `dict`, or a raised exception carrying
`str(e)`. -/
inductive HandlerReturn where
  | noneVal
  | result (r : CallbackResult)
  | boolean (b : Bool)
  | dict (d : Metadata)
  | raise (msg : String)
  deriving Repr

/-- A registered handler: Python callable with a `__name__`. -/
structure Handler where
  name : String
  run : CallbackContext → HandlerReturn

/-- `CallbackRegistry.run_callbacks`: invoke handlers in registration
order; `None` proceeds, a returned `CallbackResult` short-circuits when
it is a failure or a skip and proceeds otherwise, `False` produces a
synthetic failure naming the handler, a returned dict is merged into
`context.metadata`, and a raised exception yields
`CallbackResult.fail("Callback failed: " + str(e))`.  Returns the
(possibly mutated) context together with the result. -/
def run_callbacks : List Handler → CallbackContext →
    CallbackContext × CallbackResult
  | [], ctx => (ctx, CallbackResult.ok)
  | h :: t, ctx =>
    match h.run ctx with
    | HandlerReturn.raise msg =>
      (ctx, CallbackResult.fail ("Callback failed: " ++ msg))
    | HandlerReturn.noneVal => run_callbacks t ctx
    | HandlerReturn.result r =>
      if !r.success || r.skip_script then (ctx, r) else run_callbacks t ctx
    | HandlerReturn.boolean b =>
      if !b then
        (ctx, CallbackResult.fail ("Callback " ++ h.name ++ " returned False"))
      else run_callbacks t ctx
    | HandlerReturn.dict d =>
      run_callbacks t { ctx with metadata := dictUpd ctx.metadata d }

/-! ### C8 -/

/-- A handler that raises an exception whose text is `boom`. -/
def exRaiseHandler : Handler :=
  { name := "boomer", run := fun _ => HandlerReturn.raise "boom" }

/-- An empty job-scope context. -/
def exCtx : CallbackContext :=
  { job_id := "job-1"
    tenant_id := "tenant1"
    script := []
    scripts := []
    current_script_index := -1
    metadata := [] }

/-- Counterexample to C8 as stated: a handler raising an exception with
text `boom` produces a failure whose message is
`"Callback failed: boom"`, not the bare exception text `boom`. -/
theorem run_callbacks_exception_message_counterexample :
    (run_callbacks [exRaiseHandler] exCtx).2.success = false ∧
    (run_callbacks [exRaiseHandler] exCtx).2.message =
      some "Callback failed: boom" ∧
    (run_callbacks [exRaiseHandler] exCtx).2.message ≠ some "boom" := by
  refine ⟨rfl, rfl, ?_⟩
  decide

/-- C8 (amended): `run_callbacks` invokes handlers in registration
order and stops at the first failure or skip: a handler returning
nothing proceeds; a returned mapping is merged into `context.metadata`
and proceeds; the boolean `false` produces a failure with a synthetic
message naming the handler; a raised exception produces a failure whose
message is the exception text prefixed with `"Callback failed: "`; a
result with `success = false` or `skip_script = true` is returned
as-is so that the remaining handlers never run (the right-hand sides of
the short-circuiting equations do not mention the tail `t`). -/
theorem run_callbacks_contract (h : Handler) (t : List Handler)
    (ctx : CallbackContext) :
    (h.run ctx = HandlerReturn.noneVal →
      run_callbacks (h :: t) ctx = run_callbacks t ctx) ∧
    (∀ d, h.run ctx = HandlerReturn.dict d →
      run_callbacks (h :: t) ctx =
        run_callbacks t { ctx with metadata := dictUpd ctx.metadata d }) ∧
    (h.run ctx = HandlerReturn.boolean false →
      run_callbacks (h :: t) ctx =
        (ctx, CallbackResult.fail ("Callback " ++ h.name ++ " returned False"))) ∧
    (h.run ctx = HandlerReturn.boolean true →
      run_callbacks (h :: t) ctx = run_callbacks t ctx) ∧
    (∀ msg, h.run ctx = HandlerReturn.raise msg →
      run_callbacks (h :: t) ctx =
        (ctx, CallbackResult.fail ("Callback failed: " ++ msg))) ∧
    (∀ r, h.run ctx = HandlerReturn.result r →
      r.success = false ∨ r.skip_script = true →
      run_callbacks (h :: t) ctx = (ctx, r)) ∧
    (∀ r, h.run ctx = HandlerReturn.result r →
      r.success = true → r.skip_script = false →
      run_callbacks (h :: t) ctx = run_callbacks t ctx) ∧
    run_callbacks [] ctx = (ctx, CallbackResult.ok) := by
  refine ⟨?_, ?_, ?_, ?_, ?_, ?_, ?_, rfl⟩
  · intro he
    simp [run_callbacks, he]
  · intro d he
    simp [run_callbacks, he]
  · intro he
    simp [run_callbacks, he]
  · intro he
    simp [run_callbacks, he]
  · intro msg he
    simp [run_callbacks, he]
  · intro r he hsc
    rcases hsc with hf | hs
    · simp [run_callbacks, he, hf]
    · simp [run_callbacks, he, hs]
  · intro r he hsu hsk
    simp [run_callbacks, he, hsu, hsk]

/-- A handler that returns a skip directive. -/
def exSkipAllHandler : Handler :=
  { name := "skipper"
    run := fun _ => HandlerReturn.result (CallbackResult.skip (some "skip it")) }

/-- Witness for C8 (amended): a skip result short-circuits the chain
even with further handlers registered behind it. -/
theorem run_callbacks_contract_witness :
    run_callbacks [exSkipAllHandler, exRaiseHandler] exCtx =
      (exCtx, CallbackResult.skip (some "skip it")) :=
  (run_callbacks_contract exSkipAllHandler [exRaiseHandler] exCtx).2.2.2.2.2.1
    (CallbackResult.skip (some "skip it")) rfl (Or.inr rfl)

/-! ### Script loader and validator (`app/migration/validator.py`) -/

/-- `ScriptType` enum from `app/migration/classes.py`. -/
inductive ScriptType where
  | migration
  | rollback
  | seed
  deriving DecidableEq, Repr

/-- The version group `(\d*.\d*)` of the patterns in `validator.py`
with its UNESCAPED dot: zero or more digits, one arbitrary non-newline
character, zero or more digits.  A regex group matches a chunk iff some
split of the chunk witnesses it. -/
def versionChunk (v : List Char) : Bool :=
  (List.range v.length).any fun k =>
    ((v.take k).all Char.isDigit) &&
    (match v.drop k with
     | c :: rest => c != '\n' && rest.all Char.isDigit
     | [] => false)

/-- Python `re.match` of the anchored pattern
`^L(\d*.\d*)__(.*)\.sql$` (L the leading letter, dot unescaped,
description possibly empty): the pattern matches iff the filename
decomposes as `L ++ version ++ "__" ++ desc ++ ".sql"` with `version`
matching `\d*.\d*` and every `desc` character matched by `.` (any
character but newline); the trailing `\.sql$` pins the literal `.sql`
to the last four characters. -/
def patMatch (lead : Char) (s : List Char) : Bool :=
  match s with
  | [] => false
  | c :: t =>
    c == lead &&
    (List.range (t.length + 1)).any fun i =>
      versionChunk (t.take i) &&
      ((t.drop i).take 2 == ['_', '_'] &&
        (decide (4 ≤ ((t.drop i).drop 2).length) &&
          (((t.drop i).drop 2).drop (((t.drop i).drop 2).length - 4) ==
            ['.', 's', 'q', 'l']) &&
          (((t.drop i).drop 2).take (((t.drop i).drop 2).length - 4)).all
            (fun c2 => c2 != '\n')))

/-- `MigrationValidator.parse_script_filename`, restricted to the
classification: try `MIGRATION_PATTERN` (`V`), then `ROLLBACK_PATTERN`
(`R`), then `SEED_PATTERN` (`S`); `None` when none matches.  The
version/description group captures are not modelled, as no claim
depends on their exact values. -/
def parse_script_filename (filename : String) : Option ScriptType :=
  if patMatch 'V' filename.toList then some ScriptType.migration
  else if patMatch 'R' filename.toList then some ScriptType.rollback
  else if patMatch 'S' filename.toList then some ScriptType.seed
  else none

/-- The warning text `load_scripts` records for a filename matching no
pattern. -/
def unmatchedWarning (filename : String) : String :=
  filename ++ ": Filename doesn't match expected pattern " ++
    "(V###__description.sql, R###__description.sql, or S###__description.sql)"

/-- `MigrationValidator.load_scripts`, restricted to filename handling
over the sorted `*.sql` directory listing: a parsed filename is loaded,
an unparsed one records the warning and is skipped.  File-content
reading (an IO effect), per-script content validation and version
conflict detection only append to `errors`/`warnings` and do not affect
which filenames load, and are elided. -/
def load_scripts (files : List String) :
    List (String × ScriptType) × List String :=
  files.foldl
    (fun acc name =>
      match parse_script_filename name with
      | none => (acc.1, acc.2 ++ [unmatchedWarning name])
      | some k => (acc.1 ++ [(name, k)], acc.2))
    ([], [])

/-- The version group of the grammar claimed by the spec,
`(\d*\.\d*)`: digits, a LITERAL dot, digits.  Defined from the words of
the spec, for comparison with the code patterns. -/
def specVersionChunk (v : List Char) : Bool :=
  (List.range v.length).any fun k =>
    ((v.take k).all Char.isDigit) &&
    (match v.drop k with
     | c :: rest => c == '.' && rest.all Char.isDigit
     | [] => false)

/-- The filename grammar claimed by the spec:
`^[VRS](\d*\.\d*)__(.+)\.sql$` — literal dot in the version and a
NON-EMPTY description.  Defined from the words of the spec, for
comparison with the code patterns. -/
def spec_script_grammar (s : List Char) : Bool :=
  match s with
  | [] => false
  | c :: t =>
    (c == 'V' || c == 'R' || c == 'S') &&
    (List.range (t.length + 1)).any fun i =>
      specVersionChunk (t.take i) &&
      ((t.drop i).take 2 == ['_', '_'] &&
        (decide (5 ≤ ((t.drop i).drop 2).length) &&
          (((t.drop i).drop 2).drop (((t.drop i).drop 2).length - 4) ==
            ['.', 's', 'q', 'l']) &&
          (((t.drop i).drop 2).take (((t.drop i).drop 2).length - 4)).all
            (fun c2 => c2 != '\n')))

/-! ### C7 -/

/-- Counterexample to C7 as stated: the code pattern has an unescaped
dot and a possibly-empty description, so `V1x2__y.sql` (no literal dot
in the version) and `V1.2__.sql` (empty description) are both
classified as migrations although neither matches the grammar
`^[VRS](\d*\.\d*)__(.+)\.sql$` stated by the claim. -/
theorem parse_script_filename_counterexample :
    parse_script_filename "V1x2__y.sql" = some ScriptType.migration ∧
    spec_script_grammar "V1x2__y.sql".toList = false ∧
    parse_script_filename "V1.2__.sql" = some ScriptType.migration ∧
    spec_script_grammar "V1.2__.sql".toList = false := by
  refine ⟨?_, ?_, ?_, ?_⟩ <;> decide

theorem patMatch_head (lead : Char) (s : List Char)
    (h : patMatch lead s = true) : ∃ t, s = lead :: t := by
  cases s with
  | nil => simp [patMatch] at h
  | cons c t =>
    refine ⟨t, ?_⟩
    simp only [patMatch, Bool.and_eq_true, beq_iff_eq] at h
    rw [h.1]

theorem load_scripts_foldl (files : List String) :
    ∀ acc : List (String × ScriptType) × List String,
    files.foldl
      (fun acc name =>
        match parse_script_filename name with
        | none => (acc.1, acc.2 ++ [unmatchedWarning name])
        | some k => (acc.1 ++ [(name, k)], acc.2)) acc =
      (acc.1 ++ files.filterMap
          (fun n => (parse_script_filename n).map (fun k => (n, k))),
       acc.2 ++ (files.filter
          (fun n => (parse_script_filename n).isNone)).map unmatchedWarning) := by
  induction files with
  | nil => intro acc; simp
  | cons name rest ih =>
    intro acc
    cases hp : parse_script_filename name with
    | none => simp [List.foldl_cons, hp, ih, List.filterMap_cons, List.filter_cons]
    | some k => simp [List.foldl_cons, hp, ih, List.filterMap_cons, List.filter_cons]

/-- C7 (amended): a `*.sql` filename is classified as a migration,
rollback or seed script exactly when it matches the code pattern
`^[VRS](\d*.\d*)__(.*)\.sql$`, in which the dot of the version is
UNESCAPED (it matches any character, not only a literal dot) and the
description may be EMPTY; the leading letter `V`/`R`/`S` decides the
kind, and every other filename is ignored by the loader, which records
the not-matching warning for it. -/
theorem parse_script_filename_classification (files : List String)
    (name : String) (hmem : name ∈ files) :
    (parse_script_filename name = some ScriptType.migration ↔
      patMatch 'V' name.toList = true) ∧
    (parse_script_filename name = some ScriptType.rollback ↔
      patMatch 'R' name.toList = true) ∧
    (parse_script_filename name = some ScriptType.seed ↔
      patMatch 'S' name.toList = true) ∧
    (parse_script_filename name = none ↔
      (patMatch 'V' name.toList = false ∧ patMatch 'R' name.toList = false ∧
        patMatch 'S' name.toList = false)) ∧
    (parse_script_filename name = none →
      (∀ k, (name, k) ∉ (load_scripts files).1) ∧
      unmatchedWarning name ∈ (load_scripts files).2) ∧
    (∀ k, parse_script_filename name = some k →
      (name, k) ∈ (load_scripts files).1) := by
  have hVR : patMatch 'V' name.data = true →
      patMatch 'R' name.data = true → False := by
    intro hV hR
    obtain ⟨t1, he1⟩ := patMatch_head _ _ hV
    obtain ⟨t2, he2⟩ := patMatch_head _ _ hR
    rw [he1] at he2
    cases he2
  have hVS : patMatch 'V' name.data = true →
      patMatch 'S' name.data = true → False := by
    intro hV hS
    obtain ⟨t1, he1⟩ := patMatch_head _ _ hV
    obtain ⟨t2, he2⟩ := patMatch_head _ _ hS
    rw [he1] at he2
    cases he2
  have hRS : patMatch 'R' name.data = true →
      patMatch 'S' name.data = true → False := by
    intro hR hS
    obtain ⟨t1, he1⟩ := patMatch_head _ _ hR
    obtain ⟨t2, he2⟩ := patMatch_head _ _ hS
    rw [he1] at he2
    cases he2
  have hRfalse : patMatch 'V' name.data = true →
      patMatch 'R' name.data = false := by
    intro hV
    by_cases hR : patMatch 'R' name.data = true
    · exact absurd (hVR hV hR) not_false
    · exact Bool.eq_false_iff.mpr hR
  have hSfalseV : patMatch 'V' name.data = true →
      patMatch 'S' name.data = false := by
    intro hV
    by_cases hS : patMatch 'S' name.data = true
    · exact absurd (hVS hV hS) not_false
    · exact Bool.eq_false_iff.mpr hS
  have hSfalseR : patMatch 'R' name.data = true →
      patMatch 'S' name.data = false := by
    intro hR
    by_cases hS : patMatch 'S' name.data = true
    · exact absurd (hRS hR hS) not_false
    · exact Bool.eq_false_iff.mpr hS
  have hload : load_scripts files =
      (files.filterMap (fun n => (parse_script_filename n).map (fun k => (n, k))),
       (files.filter (fun n => (parse_script_filename n).isNone)).map
         unmatchedWarning) := by
    unfold load_scripts
    simpa using load_scripts_foldl files ([], [])
  refine ⟨?_, ?_, ?_, ?_, ?_, ?_⟩
  · unfold parse_script_filename
    by_cases hV : patMatch 'V' name.data = true
    · simp [hV]
    · by_cases hR : patMatch 'R' name.data = true
      · simp [hV, hR]
      · by_cases hS : patMatch 'S' name.data = true <;> simp [hV, hR, hS]
  · unfold parse_script_filename
    by_cases hV : patMatch 'V' name.data = true
    · simp [hV, hRfalse hV]
    · by_cases hR : patMatch 'R' name.data = true
      · simp [hV, hR]
      · by_cases hS : patMatch 'S' name.data = true <;> simp [hV, hR, hS]
  · unfold parse_script_filename
    by_cases hV : patMatch 'V' name.data = true
    · simp [hV, hSfalseV hV]
    · by_cases hR : patMatch 'R' name.data = true
      · simp [hV, hR, hSfalseR hR]
      · by_cases hS : patMatch 'S' name.data = true <;> simp [hV, hR, hS]
  · unfold parse_script_filename
    by_cases hV : patMatch 'V' name.data = true
    · simp [hV]
    · by_cases hR : patMatch 'R' name.data = true
      · simp [hV, hR]
      · by_cases hS : patMatch 'S' name.data = true <;> simp [hV, hR, hS]
  · intro hnone
    rw [hload]
    constructor
    · intro k hk
      simp only [List.mem_filterMap] at hk
      obtain ⟨n, hn, hopt⟩ := hk
      cases hp : parse_script_filename n with
      | none =>
        rw [hp] at hopt
        simp at hopt
      | some k2 =>
        rw [hp] at hopt
        simp at hopt
        obtain ⟨rfl, rfl⟩ := hopt
        simp [hnone] at hp
    · simp only [List.mem_map]
      refine ⟨name, ?_, rfl⟩
      rw [List.mem_filter]
      exact ⟨hmem, by simp [hnone]⟩
  · intro k hk
    rw [hload]
    simp only [List.mem_filterMap]
    exact ⟨name, hmem, by simp [hk]⟩

/-- Witness for C7 (amended): the directory listing of spec scenario 6
— a well-formed migration plus `init.sql`, which is warned about and
ignored. -/
theorem parse_script_filename_classification_witness :
    (parse_script_filename "init.sql" = some ScriptType.migration ↔
      patMatch 'V' "init.sql".toList = true) ∧
    (parse_script_filename "init.sql" = some ScriptType.rollback ↔
      patMatch 'R' "init.sql".toList = true) ∧
    (parse_script_filename "init.sql" = some ScriptType.seed ↔
      patMatch 'S' "init.sql".toList = true) ∧
    (parse_script_filename "init.sql" = none ↔
      (patMatch 'V' "init.sql".toList = false ∧
        patMatch 'R' "init.sql".toList = false ∧
        patMatch 'S' "init.sql".toList = false)) ∧
    (parse_script_filename "init.sql" = none →
      (∀ k, ("init.sql", k) ∉
        (load_scripts ["V001__create_users_table.sql", "init.sql"]).1) ∧
      unmatchedWarning "init.sql" ∈
        (load_scripts ["V001__create_users_table.sql", "init.sql"]).2) ∧
    (∀ k, parse_script_filename "init.sql" = some k →
      ("init.sql", k) ∈
        (load_scripts ["V001__create_users_table.sql", "init.sql"]).1) :=
  parse_script_filename_classification
    ["V001__create_users_table.sql", "init.sql"] "init.sql" (by decide)

/-! ### Tenant Worker (`app/worker.py`) -/

/-- The seven handler lists of `CallbackRegistry`. -/
structure CallbackRegistryState where
  before_job_callbacks : List Handler := []
  after_job_callbacks : List Handler := []
  before_tenant_callbacks : List Handler := []
  after_tenant_callbacks : List Handler := []
  before_script_callbacks : List Handler := []
  after_script_callbacks : List Handler := []
  on_error_callbacks : List Handler := []

/-- Outcome of one `execute_script` call against the tenant database:
success, a raised SQL exception carrying `str(e)`, or delivery of the
Celery `SoftTimeLimitExceeded` signal at this suspension point. -/
inductive ExecOutcome where
  | ok
  | error (msg : String)
  | softTimeLimit
  deriving DecidableEq, Repr

/-- Python rendering of an optional message inside an f-string
(`str(None)` prints `None`). -/
def msgText : Option String → String
  | some m => m
  | none => "None"

/-- The `script` dict handed to a script-scope context. -/
def script_dict (sc : ScriptDict) : List (String × String) :=
  [("filename", sc.filename), ("content", sc.content)]

/-- Control-flow outcome of the per-script loop of
`apply_migration_to_tenant`, carrying the `scripts_applied`,
`scripts_skipped` and `callback_metadata` accumulated on the result
when the loop exits. -/
inductive LoopOutcome where
  | finished (applied skipped : List String) (cbmeta : Metadata)
  | failedStep (applied skipped : List String) (cbmeta : Metadata) (msg : String)
  | timedOut (applied skipped : List String) (cbmeta : Metadata)
  deriving Repr

/-- The `for idx, script in enumerate(scripts)` loop of
`apply_migration_to_tenant` (worker.py lines 131-180): per script,
build a script context with a copy of the tenant metadata, run
`before_script` hooks (failure fails the tenant, a skip directive
appends to `scripts_skipped` and continues), execute the script, append
to `scripts_applied`, run `after_script` hooks (failure fails the
tenant), and merge the script-context metadata into the result
metadata.  `SoftTimeLimitExceeded` delivered at the execute suspension
point aborts the loop. -/
def script_loop (brs ars : List Handler) (execOracle : ScriptDict → ExecOutcome)
    (jobId tenantId : String) (allScripts : List ScriptDict) (tmeta : Metadata) :
    Nat → List ScriptDict → List String → List String → Metadata → LoopOutcome
  | _, [], applied, skipped, cbm => LoopOutcome.finished applied skipped cbm
  | idx, sc :: rest, applied, skipped, cbm =>
    let sctx : CallbackContext :=
      { job_id := jobId, tenant_id := tenantId, script := script_dict sc,
        scripts := allScripts, current_script_index := Int.ofNat idx,
        metadata := tmeta }
    let br := run_callbacks brs sctx
    if br.2.success = false then
      LoopOutcome.failedStep applied skipped cbm
        ("Before script callback failed: " ++ msgText br.2.message)
    else if br.2.skip_script then
      script_loop brs ars execOracle jobId tenantId allScripts tmeta
        (idx + 1) rest applied (skipped ++ [sc.filename]) cbm
    else
      match execOracle sc with
      | ExecOutcome.softTimeLimit => LoopOutcome.timedOut applied skipped cbm
      | ExecOutcome.error m => LoopOutcome.failedStep applied skipped cbm m
      | ExecOutcome.ok =>
        let ar := run_callbacks ars br.1
        if ar.2.success = false then
          LoopOutcome.failedStep (applied ++ [sc.filename]) skipped cbm
            ("After script callback failed: " ++ msgText ar.2.message)
        else
          script_loop brs ars execOracle jobId tenantId allScripts tmeta
            (idx + 1) rest (applied ++ [sc.filename]) skipped
            (dictUpd cbm ar.1.metadata)

/-- `apply_migration_to_tenant` (worker.py): build a `RUNNING` result,
run `before_tenant` hooks (failure fails the tenant before anything
runs), on `dry_run` mark every script applied, otherwise walk the
script loop; `after_tenant` hook failure is only logged.  The
`SoftTimeLimitExceeded` handler sets `error_message` but leaves the
status untouched (the `result.status = MigrationStatus.FAILED` line in
its body is commented out in the source); the generic handler sets
`FAILED` and `str(e)`.  The `finally` block stamps `completed_at` and
`duration_seconds` and calls `update_tenant_result`; that flush itself
may raise (`AttributeError` on a non-terminal save of the stored job),
in which case the exception propagates out of the `finally` block and
the result is lost — the second component carries the flush outcome.
Timestamps and the duration are passed as parameters in place of the
wall clock. -/
def apply_migration_to_tenant (reg : CallbackRegistryState)
    (execOracle : ScriptDict → ExecOutcome)
    (job_id tenant_id : String) (scripts : List ScriptDict) (dry_run : Bool)
    (started_at now : String) (dur : Int) (store : Store) :
    TenantMigrationResult × Except String Store :=
  let base : TenantMigrationResult :=
    { tenant_id := tenant_id
      status := MigrationStatus.running
      scripts_applied := []
      scripts_skipped := []
      callback_metadata := []
      started_at := some started_at }
  let ctx0 : CallbackContext :=
    { job_id := job_id, tenant_id := tenant_id, script := [], scripts := scripts,
      current_script_index := -1, metadata := [] }
  let bt := run_callbacks reg.before_tenant_callbacks ctx0
  let result :=
    if bt.2.success = false then
      { base with
        status := MigrationStatus.failed
        error_message :=
          some ("Before tenant callback failed: " ++ msgText bt.2.message) }
    else
      let base1 :=
        { base with
          callback_metadata := dictUpd base.callback_metadata bt.1.metadata }
      if dry_run then
        { base1 with
          scripts_applied := scripts.map (fun s => s.filename)
          status := MigrationStatus.success }
      else
        match script_loop reg.before_script_callbacks reg.after_script_callbacks
            execOracle job_id tenant_id scripts bt.1.metadata 0 scripts [] []
            base1.callback_metadata with
        | LoopOutcome.finished applied skipped cbm =>
          { base1 with
            scripts_applied := applied
            scripts_skipped := skipped
            callback_metadata := cbm
            status := MigrationStatus.success }
        | LoopOutcome.failedStep applied skipped cbm msg =>
          { base1 with
            scripts_applied := applied
            scripts_skipped := skipped
            callback_metadata := cbm
            status := MigrationStatus.failed
            error_message := some msg }
        | LoopOutcome.timedOut applied skipped cbm =>
          { base1 with
            scripts_applied := applied
            scripts_skipped := skipped
            callback_metadata := cbm
            error_message := some "Migration exceeded time limit" }
  let result2 := { result with completed_at := some now, duration_seconds := some dur }
  (result2, update_tenant_result store job_id result2 now)

/-! ### C4 -/

/-- The first script of the spec scenarios. -/
def exScript1 : ScriptDict :=
  { filename := "V001__init.sql", content := "CREATE TABLE a (id INT);" }

/-- The second script of the spec scenarios. -/
def exScript2 : ScriptDict :=
  { filename := "V002__addcol.sql", content := "ALTER TABLE a ADD b INT;" }

/-- An executor at which the soft deadline fires while the second
script is being applied. -/
def exTimeoutExec : ScriptDict → ExecOutcome := fun sc =>
  if sc.filename == "V002__addcol.sql" then ExecOutcome.softTimeLimit
  else ExecOutcome.ok

/-- The worker run interrupted by the soft deadline, flushing into the
fresh single-tenant store (a terminal update, so the flush itself
succeeds). -/
def exTimeoutRun : TenantMigrationResult × Except String Store :=
  apply_migration_to_tenant {} exTimeoutExec "job-1" "tenant1"
    [exScript1, exScript2] false "2024-01-15T10:30:00" "2024-01-15T11:30:05"
    3605 exStore1

/-- C4 evaluated at the failing input: when `SoftTimeLimitExceeded`
interrupts the worker while the second script runs, the worker catches
it, sets `error_message = "Migration exceeded time limit"`, preserves
the `scripts_applied` recorded so far and flushes the result — here
into a fresh single-tenant job, whose update is terminal, so the flush
succeeds — but the flushed status is `RUNNING`, not `FAILED`: the
assignment `result.status = MigrationStatus.FAILED` is commented out in
the `except SoftTimeLimitExceeded` arm of `worker.py`.  Because
`RUNNING` counts as neither success nor failure, the single-tenant job
even terminalises as `SUCCESS`.  (On a job with further tenants pending
the flush is non-terminal and raises instead; see the C1 and C3
theorems.) -/
theorem apply_migration_soft_time_limit_eval :
    (exTimeoutRun.1.error_message = some "Migration exceeded time limit") ∧
    exTimeoutRun.1.scripts_applied = ["V001__init.sql"] ∧
    exTimeoutRun.1.status = MigrationStatus.running ∧
    exTimeoutRun.1.status ≠ MigrationStatus.failed ∧
    (∃ s1, exTimeoutRun.2 = Except.ok s1 ∧
      (get_job s1 "job-1").map (fun j => dictGet j.tenant_results "tenant1") =
        some (some exTimeoutRun.1) ∧
      (get_job s1 "job-1").map (fun j => j.status) =
        some (PyStatus.str "success")) := by
  refine ⟨rfl, rfl, rfl, by decide, ⟨_, rfl, rfl, rfl⟩⟩

/-! ### C6 -/

/-- A `before_script` hook returning a skip directive exactly for the
scripts whose filename satisfies `p`, and `None` otherwise. -/
def skipHandler (p : String → Bool) : Handler :=
  { name := "skip_hook"
    run := fun ctx =>
      if p ((dictGet ctx.script "filename").getD "") then
        HandlerReturn.result (CallbackResult.skip (some "skip it"))
      else HandlerReturn.noneVal }

/-- An `after_script` hook that fails when invoked on a script whose
filename satisfies `p`: it observes whether `after_script` hooks run
for skipped scripts. -/
def afterGuard (p : String → Bool) : Handler :=
  { name := "after_guard"
    run := fun ctx =>
      if p ((dictGet ctx.script "filename").getD "") then
        HandlerReturn.boolean false
      else HandlerReturn.noneVal }

/-- An executor that raises when asked to execute a script whose
filename satisfies `p`: it observes whether skipped scripts are
executed. -/
def skipExec (p : String → Bool) : ScriptDict → ExecOutcome := fun sc =>
  if p sc.filename then ExecOutcome.error "executed a skipped script"
  else ExecOutcome.ok

/-- Registry with only the skip hook and the after-script guard. -/
def skipRegistry (p : String → Bool) : CallbackRegistryState :=
  { before_script_callbacks := [skipHandler p]
    after_script_callbacks := [afterGuard p] }

theorem dictGet_script_dict_filename (sc : ScriptDict) :
    dictGet (script_dict sc) "filename" = some sc.filename := by
  simp [script_dict, dictGet]

theorem run_skipHandler_skip (p : String → Bool) (ctx : CallbackContext)
    (hp : p ((dictGet ctx.script "filename").getD "") = true) :
    run_callbacks [skipHandler p] ctx =
      (ctx, CallbackResult.skip (some "skip it")) := by
  simp [run_callbacks, skipHandler, hp, CallbackResult.skip]

theorem run_skipHandler_none (p : String → Bool) (ctx : CallbackContext)
    (hp : p ((dictGet ctx.script "filename").getD "") = false) :
    run_callbacks [skipHandler p] ctx = (ctx, CallbackResult.ok) := by
  simp [run_callbacks, skipHandler, hp]

theorem run_afterGuard_none (p : String → Bool) (ctx : CallbackContext)
    (hp : p ((dictGet ctx.script "filename").getD "") = false) :
    run_callbacks [afterGuard p] ctx = (ctx, CallbackResult.ok) := by
  simp [run_callbacks, afterGuard, hp]

theorem script_loop_skip (p : String → Bool) (jobId tenantId : String)
    (allScripts : List ScriptDict) :
    ∀ (scripts : List ScriptDict) (idx : Nat) (applied skipped : List String)
      (cbm : Metadata),
    script_loop [skipHandler p] [afterGuard p] (skipExec p) jobId tenantId
        allScripts [] idx scripts applied skipped cbm =
      LoopOutcome.finished
        (applied ++ (scripts.filter (fun sc => !(p sc.filename))).map
          (fun sc => sc.filename))
        (skipped ++ (scripts.filter (fun sc => p sc.filename)).map
          (fun sc => sc.filename))
        cbm := by
  intro scripts
  induction scripts with
  | nil =>
    intro idx applied skipped cbm
    simp [script_loop]
  | cons sc rest ih =>
    intro idx applied skipped cbm
    by_cases hp : p sc.filename = true
    · simp only [script_loop]
      simp [run_skipHandler_skip, dictGet_script_dict_filename, hp,
        CallbackResult.skip, ih, List.filter_cons]
    · simp only [script_loop]
      simp [run_skipHandler_none, run_afterGuard_none,
        dictGet_script_dict_filename, hp, CallbackResult.ok, skipExec, ih,
        List.filter_cons, dictUpd]

/-- C6: when a `before_script` hook returns a skip directive for a
script, the Tenant Worker appends that script filename to
`scripts_skipped`, does not execute the script (the executor raises on
skipped scripts, yet the tenant succeeds), does not run `after_script`
hooks for it (the guard hook fails on skipped scripts, yet the tenant
succeeds), and continues with the remaining scripts; with nothing else
failing the tenant ends `SUCCESS`, with `scripts_applied` exactly the
non-skipped filenames in order and every skipped filename absent from
`scripts_applied`. -/
theorem before_script_skip_directive (p : String → Bool)
    (scripts : List ScriptDict) (job_id tenant_id started_at now : String)
    (dur : Int) (store : Store) :
    (apply_migration_to_tenant (skipRegistry p) (skipExec p) job_id tenant_id
        scripts false started_at now dur store).1.status =
      MigrationStatus.success ∧
    (apply_migration_to_tenant (skipRegistry p) (skipExec p) job_id tenant_id
        scripts false started_at now dur store).1.scripts_skipped =
      (scripts.filter (fun sc => p sc.filename)).map (fun sc => sc.filename) ∧
    (apply_migration_to_tenant (skipRegistry p) (skipExec p) job_id tenant_id
        scripts false started_at now dur store).1.scripts_applied =
      (scripts.filter (fun sc => !(p sc.filename))).map (fun sc => sc.filename) ∧
    (∀ sc ∈ scripts, p sc.filename = true →
      sc.filename ∉ (apply_migration_to_tenant (skipRegistry p) (skipExec p)
        job_id tenant_id scripts false started_at now dur store).1.scripts_applied) := by
  have hloop := script_loop_skip p job_id tenant_id scripts scripts 0 [] [] []
  have heval : (apply_migration_to_tenant (skipRegistry p) (skipExec p) job_id
      tenant_id scripts false started_at now dur store).1 =
      { tenant_id := tenant_id
        status := MigrationStatus.success
        scripts_applied := (scripts.filter (fun sc => !(p sc.filename))).map
          (fun sc => sc.filename)
        scripts_skipped := (scripts.filter (fun sc => p sc.filename)).map
          (fun sc => sc.filename)
        callback_metadata := []
        started_at := some started_at
        completed_at := some now
        duration_seconds := some dur } := by
    unfold apply_migration_to_tenant skipRegistry
    simp [run_callbacks, CallbackResult.ok, dictUpd, hloop]
  refine ⟨by rw [heval], by rw [heval], by rw [heval], ?_⟩
  intro sc hmem hp hcontra
  rw [heval] at hcontra
  simp only [List.mem_map, List.mem_filter] at hcontra
  obtain ⟨sc2, ⟨_, hsc2⟩, hname⟩ := hcontra
  rw [← hname] at hp
  rw [hp] at hsc2
  simp at hsc2

/-- The skip predicate of spec scenario 2: skip `V002__addcol.sql`. -/
def exSkipPred : String → Bool := fun f => f == "V002__addcol.sql"

/-- Witness for C6 at spec scenario 2: two scripts, the second skipped. -/
theorem before_script_skip_directive_witness :
    (apply_migration_to_tenant (skipRegistry exSkipPred) (skipExec exSkipPred)
        "job-1" "tenant1" [exScript1, exScript2] false "2024-01-15T10:30:00"
        "2024-01-15T10:31:00" 60 exStore).1.status = MigrationStatus.success ∧
    (apply_migration_to_tenant (skipRegistry exSkipPred) (skipExec exSkipPred)
        "job-1" "tenant1" [exScript1, exScript2] false "2024-01-15T10:30:00"
        "2024-01-15T10:31:00" 60 exStore).1.scripts_skipped =
      (([exScript1, exScript2].filter (fun sc => exSkipPred sc.filename)).map
        (fun sc => sc.filename)) ∧
    (apply_migration_to_tenant (skipRegistry exSkipPred) (skipExec exSkipPred)
        "job-1" "tenant1" [exScript1, exScript2] false "2024-01-15T10:30:00"
        "2024-01-15T10:31:00" 60 exStore).1.scripts_applied =
      (([exScript1, exScript2].filter (fun sc => !(exSkipPred sc.filename))).map
        (fun sc => sc.filename)) ∧
    (∀ sc ∈ [exScript1, exScript2], exSkipPred sc.filename = true →
      sc.filename ∉ (apply_migration_to_tenant (skipRegistry exSkipPred)
        (skipExec exSkipPred) "job-1" "tenant1" [exScript1, exScript2] false
        "2024-01-15T10:30:00" "2024-01-15T10:31:00" 60 exStore).1.scripts_applied) :=
  before_script_skip_directive exSkipPred [exScript1, exScript2] "job-1"
    "tenant1" "2024-01-15T10:30:00" "2024-01-15T10:31:00" 60 exStore

/-! ### Job Orchestrator (`app/routers/job_runner.py`) -/

/-- Python truthiness of a `CallbackResult` instance: the class defines
neither `__bool__` nor `__len__`, so `bool(result)` is `True` for every
instance, regardless of its `success` field. -/
def pyTruthyCallbackResult (_ : CallbackResult) : Bool := true

/-- The positional payload of one `apply_migration_to_tenant` task
signature built by `start_migration_job` (`.si(...)` in the parallel
branch, `apply_async(args=[...])` in the sequential one). -/
structure TenantTaskSig where
  job_id : String
  tenant : StartMigrationTenantRequest
  scripts : List ScriptDict
  dry_run : Bool
  deriving DecidableEq, Repr

/-- Build the task signature for one tenant. -/
def tenantSig (job_id : String) (scripts : List ScriptDict) (dry_run : Bool)
    (t : StartMigrationTenantRequest) : TenantTaskSig :=
  { job_id := job_id, tenant := t, scripts := scripts, dry_run := dry_run }

/-- What `start_migration_job` hands to the Celery transport.  `chord`
runs the task group in parallel and fires the finalizer once all
complete.  `chain` (a Celery primitive NOT used by this code) would
submit task `i+1` only after task `i` terminates.  `eagerList` is what
the sequential branch actually produces: every task is submitted
immediately via `apply_async` inside the `StartJob` loop, each
optionally carrying a `link` callback. -/
inductive DispatchPlan where
  | chord (tasks : List TenantTaskSig) (finalizer : String)
  | chain (tasks : List TenantTaskSig) (finalizer : String)
  | eagerList (tasks : List (TenantTaskSig × Option String))
  deriving DecidableEq, Repr

/-- The sequential branch of `start_migration_job`: one immediate
`apply_async` per tenant, in list order, with
`link=finalize_migration_job.si(job_id)` on the last task only
(`is_last = i == len(tenants) - 1`). -/
def sequentialSubmissions (job_id : String) (scripts : List ScriptDict)
    (dry_run : Bool) : List StartMigrationTenantRequest →
    List (TenantTaskSig × Option String)
  | [] => []
  | [t] => [(tenantSig job_id scripts dry_run t, some "finalize_migration_job")]
  | t :: t2 :: rest =>
    (tenantSig job_id scripts dry_run t, none) ::
      sequentialSubmissions job_id scripts dry_run (t2 :: rest)

/-- `start_migration_job` (job_runner.py lines 26-167): run
`before_job` hooks with `tenant_id = ""` and
`metadata = {tenants: tenants}`; the hook-failure check
`if not callback_result:` tests the truthiness of the `CallbackResult`
OBJECT — always `True` — so the `raise` branch is unreachable and
exceptions raised inside hooks are already converted to failure results
by `run_callbacks`; then create the job (`PENDING`) in the store and
dispatch: parallel → a chord of the tenant group with the finalizer;
sequential → an immediate `apply_async` per tenant with the finalizer
linked to the last.  Callback-file loading from the environment (an IO
effect on the registry) is elided; the registry is a parameter. -/
def start_migration_job (reg : CallbackRegistryState) (job_id : String)
    (tenants : List StartMigrationTenantRequest) (scripts : List ScriptDict)
    (dry_run : Bool) (parallel : Bool) (store : Store) (now : String) :
    Except String (Store × DispatchPlan) :=
  let ctx : CallbackContext :=
    { job_id := job_id, tenant_id := "", script := [], scripts := scripts,
      current_script_index := -1,
      metadata := [("tenants", MetaValue.tenants tenants)] }
  let bj := run_callbacks reg.before_job_callbacks ctx
  if pyTruthyCallbackResult bj.2 = false then
    Except.error ("Before job callback failed: " ++ msgText bj.2.message)
  else
    let created := create_job store job_id tenants now
    if parallel then
      Except.ok (created.1,
        DispatchPlan.chord (tenants.map (tenantSig job_id scripts dry_run))
          "finalize_migration_job")
    else
      Except.ok (created.1,
        DispatchPlan.eagerList
          (sequentialSubmissions job_id scripts dry_run tenants))

/-! ### C2 -/

/-- A `before_job` hook that fails. -/
def exFailJobHandler : Handler :=
  { name := "failing_before_job"
    run := fun _ => HandlerReturn.result (CallbackResult.fail "precondition violated") }

/-- Registry holding only the failing `before_job` hook. -/
def exFailRegistry : CallbackRegistryState :=
  { before_job_callbacks := [exFailJobHandler] }

/-- The job-scope context `start_migration_job` builds for this input. -/
def exStartCtx : CallbackContext :=
  { job_id := "job-1"
    tenant_id := ""
    script := []
    scripts := [exScript1]
    current_script_index := -1
    metadata := [("tenants", MetaValue.tenants [exTenant1])] }

/-- C2 evaluated at the failing input: the registered `before_job` hook
chain reports failure (`success = false`), yet `start_migration_job`
does not abort — `if not callback_result:` is always `False` on a
truthy `CallbackResult` object — so the job record IS persisted to the
store and the tenant task IS dispatched, contradicting the claimed
fail-fast. -/
theorem start_migration_job_hook_failure_eval :
    (run_callbacks exFailRegistry.before_job_callbacks exStartCtx).2.success =
      false ∧
    start_migration_job exFailRegistry "job-1" [exTenant1] [exScript1] false
        true [] "2024-01-15T10:30:00" =
      Except.ok ((create_job [] "job-1" [exTenant1] "2024-01-15T10:30:00").1,
        DispatchPlan.chord [tenantSig "job-1" [exScript1] false exTenant1]
          "finalize_migration_job") ∧
    get_job (create_job [] "job-1" [exTenant1] "2024-01-15T10:30:00").1
        "job-1" =
      some { (create_job [] "job-1" [exTenant1] "2024-01-15T10:30:00").2 with
             status := PyStatus.str "pending" } :=
  ⟨rfl, rfl, rfl⟩

/-! ### C5 -/

/-- C5 evaluated at the failing input: with `parallel = False` and two
tenants, `start_migration_job` produces an eager submission list — both
tenant tasks are submitted immediately inside the `StartJob` loop, with
no dependency of task 2 on the termination of task 1; only the
finalizer is linked to the last task.  In particular, the dispatch is
not a Celery chain. -/
theorem start_migration_job_sequential_eval :
    start_migration_job {} "job-1" [exTenant1, exTenant2] [exScript1] false
        false [] "2024-01-15T10:30:00" =
      Except.ok
        ((create_job [] "job-1" [exTenant1, exTenant2] "2024-01-15T10:30:00").1,
         DispatchPlan.eagerList
           [(tenantSig "job-1" [exScript1] false exTenant1, none),
            (tenantSig "job-1" [exScript1] false exTenant2,
              some "finalize_migration_job")]) ∧
    (∀ ts f, DispatchPlan.eagerList
        [(tenantSig "job-1" [exScript1] false exTenant1, none),
         (tenantSig "job-1" [exScript1] false exTenant2,
           some "finalize_migration_job")] ≠ DispatchPlan.chain ts f) :=
  ⟨rfl, fun _ _ h => DispatchPlan.noConfusion h⟩

end SimplyMigrate
